import Mathlib

/-!
Verification of the Kubernetes "Priority" admission plugin
(plugin/pkg/admission/priority/admission.go).

The plugin intercepts writes to pods and PriorityClass objects:
it resolves and stamps a numeric priority on pods at create/update time
and enforces the single-global-default invariant on PriorityClass objects.

The Go code reads two process-wide feature gates and consults an injected
read-only lister for PriorityClass objects; both are modelled as explicit
parameters (a `FeatureGates` record and a `Lister` record of `get`/`list`
operations that may fail).  Machine integers (`int32` values) are modelled
as `Int`; the code performs no arithmetic on them, only comparisons, so
overflow cannot occur.
-/

namespace KubePriority

/-- A PriorityClass object: a unique name, the `int32` priority value it
grants, and the global-default flag. -/
structure PriorityClass where
  name : String
  value : Int
  globalDefault : Bool
deriving DecidableEq, Repr

/-- The priority-related part of a pod spec: `PriorityClassName` (empty
string when unset, matching Go) and `Priority` (a `*int32`: `none` models
the nil pointer). -/
structure PodSpec where
  priorityClassName : String
  priority : Option Int
deriving DecidableEq, Repr

/-- A pod: its annotation map (`annots`, an association list standing for
Go's `map[string]string`) and its spec. -/
structure Pod where
  annots : List (String × String)
  spec : PodSpec
deriving DecidableEq, Repr

/-- Errors from the lister: `errors.IsNotFound(err)` distinguishes the
not-found case from every other failure (`other`). -/
inductive ListerError where
  | notFound
  | other
deriving DecidableEq, Repr

/-- The PriorityClass lister injected into the plugin
(`schedulingv1listers.PriorityClassLister`): `Get` by name and `List` of
all currently visible classes, each of which may fail. -/
structure Lister where
  get : String → Except ListerError PriorityClass
  list : Except ListerError (List PriorityClass)

/-- The two feature gates the plugin reads from the process-wide feature
source: `features.PodPriority` gates the whole resolution mechanism and
`features.ExperimentalCriticalPodAnnotation` gates the legacy critical-pod
inference path. -/
structure FeatureGates where
  podPriority : Bool
  experimentalCriticalPodAnnot : Bool
deriving DecidableEq, Repr

/-- The admission operation (`admission.Operation`). -/
inductive Operation where
  | create
  | update
  | delete
  | connect
deriving DecidableEq, Repr

/-- The group-resource of the request; the plugin compares against
`podResource` and `priorityClassResource` and ignores everything else. -/
inductive GroupResource where
  | pods
  | priorityClasses
  | otherResource
deriving DecidableEq, Repr

/-- The object carried by an admission request, a tagged union over the
dynamic `runtime.Object` the Go code type-asserts on. -/
inductive RuntimeObject where
  | pod (p : Pod)
  | priorityClass (pc : PriorityClass)
  | otherObject
deriving DecidableEq, Repr

/-- The fields of `admission.Attributes` that the plugin consumes. -/
structure Attributes where
  operation : Operation
  resource : GroupResource
  subresource : String
  ns : String
  object : RuntimeObject
  oldObject : RuntimeObject
deriving DecidableEq, Repr

/-- Errors returned by the plugin: `errors.NewBadRequest` (malformed
input), `admission.NewForbidden` (policy violation) and a plain
`fmt.Errorf` (transient / internal failure). -/
inductive AdmissionError where
  | badRequest (msg : String)
  | forbidden (msg : String)
  | internalError (msg : String)
deriving DecidableEq, Repr

/-- True exactly when the result is a policy-violation
(`admission.NewForbidden`) error. -/
def isForbiddenErr {α : Type} : Except AdmissionError α → Bool
  | .error (.forbidden _) => true
  | _ => false

/-- True exactly when the result is a transient (plain `fmt.Errorf`)
error, distinct from a policy violation. -/
def isTransientErr {α : Type} : Except AdmissionError α → Bool
  | .error (.internalError _) => true
  | _ => false

/-- Modelled from the spec: `metav1.NamespaceSystem`, the single
distinguished system namespace (not part of src/). -/
def NamespaceSystem : String := "kube-system"

/-- Modelled from the spec: `scheduling.SystemClusterCritical`, the
well-known cluster-critical class identifier (not part of src/). -/
def SystemClusterCritical : String := "system-cluster-critical"

/-- Modelled from the spec: `scheduling.SystemNodeCritical`, the
well-known node-critical class identifier (not part of src/). -/
def SystemNodeCritical : String := "system-node-critical"

/-- Modelled from the spec: `scheduling.SystemPriorityClasses()`, the
fixed, compiled-in set of reserved system priority classes ("a
cluster-critical tier and a node-critical tier"); not part of src/. -/
def SystemPriorityClasses : List PriorityClass :=
  [⟨SystemClusterCritical, 2000000000, false⟩,
   ⟨SystemNodeCritical, 2000001000, false⟩]

/-- Modelled from the spec: the fixed fallback numeric priority constant
`scheduling.DefaultPriorityWhenNoDefaultClassExists` (not part of src/);
0 in upstream Kubernetes. -/
def DefaultPriorityWhenNoDefaultClassExists : Int := 0

/-- Modelled from the spec: `kubelettypes.IsCritical` (not part of src/);
the spec says the legacy path fires when the workload "carries a
recognized critical marker (annotation) for its namespace": the namespace
is the system namespace and the critical annotation key is present. -/
def IsCritical (ns : String) (annots : List (String × String)) : Bool :=
  ns == NamespaceSystem &&
    annots.any (fun kv => kv.1 == "scheduler.alpha.kubernetes.io/critical-pod")

/-- `priorityClassPermittedInNamespace`: system priorities are allowed
only in the system namespace.  The Go loop returns false as soon as a
reserved class matches the name while the namespace is not the system
namespace, and true otherwise. -/
def priorityClassPermittedInNamespace (priorityClassName : String) (ns : String) : Bool :=
  !(SystemPriorityClasses.any fun spc =>
      spc.name == priorityClassName && ns != NamespaceSystem)

/-- One step of the loop body of `getDefaultPriorityClass`: keep the
global-default class with the lowest value seen so far
(`if defaultPC == nil || defaultPC.Value > pci.Value`). -/
def pickDefault (defaultPC : Option PriorityClass) (pci : PriorityClass) : Option PriorityClass :=
  if pci.globalDefault then
    match defaultPC with
    | none => some pci
    | some d => if d.value > pci.value then some pci else some d
  else defaultPC

/-- `getDefaultPriorityClass`: list all classes and pick, among those with
`GlobalDefault` set, the one with the lowest value (tolerating the
transient multi-default race); `none` when no default exists. -/
def getDefaultPriorityClass (lister : Lister) : Except ListerError (Option PriorityClass) :=
  match lister.list with
  | .error e => .error e
  | .ok cs => .ok (cs.foldl pickDefault none)

/-- `getDefaultPriority`: the name and value of the default class, or an
empty name and the fixed fallback constant when no default exists. -/
def getDefaultPriority (lister : Lister) : Except ListerError (String × Int) :=
  match getDefaultPriorityClass lister with
  | .error e => .error e
  | .ok (some dpc) => .ok (dpc.name, dpc.value)
  | .ok none => .ok ("", DefaultPriorityWhenNoDefaultClassExists)

/-- The legacy critical-pod inference step of `admitPod` on create: when
the class name is empty, the `ExperimentalCriticalPodAnnotation` gate is
on and the pod carries the critical marker, set the class name to the
well-known cluster-critical identifier. -/
def inferLegacy (gates : FeatureGates) (ns : String) (pod : Pod) : Pod :=
  if pod.spec.priorityClassName.length == 0 &&
      gates.experimentalCriticalPodAnnot && IsCritical ns pod.annots then
    { pod with spec := { pod.spec with priorityClassName := SystemClusterCritical } }
  else pod

/-- The create-time resolution steps of `admitPod` (legacy critical-pod
inference, default resolution, explicit resolution), inline in the Go
function body; returns the pod with its resolved `PriorityClassName`
together with the computed priority value. -/
def resolveCreate (gates : FeatureGates) (lister : Lister) (ns : String) (pod : Pod) :
    Except AdmissionError (Pod × Int) :=
  let pod1 := inferLegacy gates ns pod
  if pod1.spec.priorityClassName.length == 0 then
    match getDefaultPriority lister with
    | .error _ => .error (.internalError "failed to get default priority class")
    | .ok (pcName, priority) =>
      .ok ({ pod1 with spec := { pod1.spec with priorityClassName := pcName } }, priority)
  else
    let pcName := pod1.spec.priorityClassName
    if !priorityClassPermittedInNamespace pcName ns then
      .error (.forbidden ("pods with " ++ pcName ++ " priorityClass is not permitted in "
        ++ ns ++ " namespace"))
    else
      match lister.get pcName with
      | .error .notFound =>
        .error (.forbidden ("no PriorityClass with name " ++ pcName ++ " was found"))
      | .error .other =>
        .error (.internalError ("failed to get PriorityClass with name " ++ pcName))
      | .ok pc => .ok (pod1, pc.value)

/-- `admitPod`: on update, preserve the existing priority; on create,
resolve the priority (see `resolveCreate`), reject a pod that carries a
priority disagreeing with the resolved value, and stamp the resolved
value.  Returns the (possibly mutated) pod on success. -/
def admitPod (gates : FeatureGates) (lister : Lister) (a : Attributes) :
    Except AdmissionError Pod :=
  match a.object with
  | .pod pod =>
    match a.operation with
    | .update =>
      match a.oldObject with
      | .pod oldPod =>
        if pod.spec.priority == none && oldPod.spec.priority != none then
          .ok { pod with spec := { pod.spec with priority := oldPod.spec.priority } }
        else
          .ok pod
      | _ => .error (.badRequest "resource was marked with kind Pod but was unable to be converted")
    | .create =>
      match resolveCreate gates lister a.ns pod with
      | .error e => .error e
      | .ok (pod2, priority) =>
        match pod2.spec.priority with
        | some p =>
          if p != priority then
            .error (.forbidden ("the integer value of priority (" ++ toString p
              ++ ") must not be provided in pod spec; priority admission controller computed "
              ++ toString priority ++ " from the given PriorityClass name"))
          else
            .ok { pod2 with spec := { pod2.spec with priority := some priority } }
        | none =>
          .ok { pod2 with spec := { pod2.spec with priority := some priority } }
    | _ => .ok pod
  | _ => .error (.badRequest "resource was marked with kind Pod but was unable to be converted")

/-- `validatePriorityClass`: when the incoming class is marked as global
default, make sure no other default already exists (on update the current
default may be the class itself, compared by name). -/
def validatePriorityClass (lister : Lister) (a : Attributes) : Except AdmissionError Unit :=
  match a.object with
  | .priorityClass pc =>
    if pc.globalDefault then
      match getDefaultPriorityClass lister with
      | .error _ => .error (.internalError "failed to get default priority class")
      | .ok none => .ok ()
      | .ok (some dpc) =>
        if a.operation == .create || (a.operation == .update && dpc.name != pc.name) then
          .error (.forbidden ("PriorityClass " ++ dpc.name
            ++ " is already marked as default. Only one default can exist"))
        else
          .ok ()
    else
      .ok ()
  | _ => .error (.badRequest "resource was marked with kind PriorityClass but was unable to be converted")

/-- The Go `Admit` method: a no-op pass-through when the PodPriority gate
is disabled; ignores subresources, non-pod resources and operations other
than create/update; otherwise runs `admitPod`.  Returns the (possibly
mutated) object. -/
def AdmitHandler (gates : FeatureGates) (lister : Lister) (a : Attributes) :
    Except AdmissionError RuntimeObject :=
  if !gates.podPriority then
    .ok a.object
  else if a.subresource.length != 0 then
    .ok a.object
  else
    match a.resource with
    | .pods =>
      if a.operation == .create || a.operation == .update then
        (admitPod gates lister a).map RuntimeObject.pod
      else
        .ok a.object
    | _ => .ok a.object

/-- The Go `Validate` method: ignores subresources, non-PriorityClass
resources and operations other than create/update; otherwise runs
`validatePriorityClass`.  The method has ambient access to the
process-wide feature gates but never consults them; the `gates` parameter
records that access explicitly. -/
def Validate (gates : FeatureGates) (lister : Lister) (a : Attributes) :
    Except AdmissionError Unit :=
  if a.subresource.length != 0 then
    .ok ()
  else
    match a.resource with
    | .priorityClasses =>
      if a.operation == .create || a.operation == .update then
        validatePriorityClass lister a
      else
        .ok ()
    | _ => .ok ()

/-- A concrete lister over a fixed snapshot of classes, for witnesses:
`Get` finds by name (not-found otherwise) and `List` returns the
snapshot. -/
def listerOf (cs : List PriorityClass) : Lister where
  get := fun n =>
    match cs.find? (fun c => c.name == n) with
    | some pc => .ok pc
    | none => .error .notFound
  list := .ok cs

/-! ### Helper lemmas about the lowest-value-default fold -/

/-- A fold step over a non-default class keeps the accumulator. -/
theorem pickDefault_not_default (acc : Option PriorityClass) (c : PriorityClass)
    (hc : c.globalDefault = false) : pickDefault acc c = acc := by
  unfold pickDefault
  rw [hc]
  simp

/-- A fold step over a default class installs it in an empty
accumulator. -/
theorem pickDefault_none_default (c : PriorityClass) (hc : c.globalDefault = true) :
    pickDefault none c = some c := by
  unfold pickDefault
  rw [if_pos hc]

/-- A fold step over a default class with a strictly lower value replaces
the accumulator. -/
theorem pickDefault_lt (d c : PriorityClass) (hc : c.globalDefault = true)
    (hv : d.value > c.value) : pickDefault (some d) c = some c := by
  unfold pickDefault
  rw [if_pos hc]
  exact if_pos hv

/-- A fold step over a default class with a value not lower keeps the
accumulator. -/
theorem pickDefault_ge (d c : PriorityClass) (hc : c.globalDefault = true)
    (hv : ¬d.value > c.value) : pickDefault (some d) c = some d := by
  unfold pickDefault
  rw [if_pos hc]
  exact if_neg hv

/-- A fold step starting from a present accumulator stays present. -/
theorem pickDefault_isSome (d : PriorityClass) (c : PriorityClass) :
    ∃ e, pickDefault (some d) c = some e := by
  cases hc : c.globalDefault with
  | false => exact ⟨d, pickDefault_not_default _ c hc⟩
  | true =>
    by_cases hv : d.value > c.value
    · exact ⟨c, pickDefault_lt d c hc hv⟩
    · exact ⟨d, pickDefault_ge d c hc hv⟩

/-- Folding `pickDefault` from a present accumulator never loses it. -/
theorem foldl_pickDefault_isSome (l : List PriorityClass) :
    ∀ d : PriorityClass, ∃ e, l.foldl pickDefault (some d) = some e := by
  induction l with
  | nil => intro d; exact ⟨d, rfl⟩
  | cons c l ih =>
    intro d
    rw [List.foldl_cons]
    obtain ⟨e, he⟩ := pickDefault_isSome d c
    rw [he]
    exact ih e

/-- One step of the fold keeps the accumulator a global-default class. -/
theorem pickDefault_globalDefault (acc : Option PriorityClass) (c : PriorityClass)
    (hacc : ∀ a, acc = some a → a.globalDefault = true) :
    ∀ e, pickDefault acc c = some e → e.globalDefault = true := by
  intro e he
  cases acc with
  | none =>
    cases hc : c.globalDefault with
    | false => rw [pickDefault_not_default _ c hc] at he; exact absurd he (by simp)
    | true => rw [pickDefault_none_default c hc] at he; cases he; exact hc
  | some d =>
    cases hc : c.globalDefault with
    | false => rw [pickDefault_not_default _ c hc] at he; cases he; exact hacc _ rfl
    | true =>
      by_cases hv : d.value > c.value
      · rw [pickDefault_lt d c hc hv] at he; cases he; exact hc
      · rw [pickDefault_ge d c hc hv] at he; cases he; exact hacc _ rfl

/-- The result of the whole fold, when present and starting from a
global-default accumulator (or none), is a global-default class. -/
theorem foldl_pickDefault_globalDefault (l : List PriorityClass) :
    ∀ acc : Option PriorityClass, (∀ a, acc = some a → a.globalDefault = true) →
      ∀ d, l.foldl pickDefault acc = some d → d.globalDefault = true := by
  induction l with
  | nil => intro acc hacc d hd; exact hacc d hd
  | cons c l ih =>
    intro acc hacc d hd
    rw [List.foldl_cons] at hd
    exact ih (pickDefault acc c) (pickDefault_globalDefault acc c hacc) d hd

/-- One fold step never increases the accumulated value. -/
theorem pickDefault_le_acc (a c : PriorityClass) :
    ∀ e, pickDefault (some a) c = some e → e.value ≤ a.value := by
  intro e he
  cases hc : c.globalDefault with
  | false => rw [pickDefault_not_default _ c hc] at he; cases he; exact le_refl _
  | true =>
    by_cases hv : a.value > c.value
    · rw [pickDefault_lt a c hc hv] at he; cases he; exact le_of_lt hv
    · rw [pickDefault_ge a c hc hv] at he; cases he; exact le_refl _

/-- A fold step over a global-default class yields a value no larger than
that class's value. -/
theorem pickDefault_default_le (acc : Option PriorityClass) (c : PriorityClass)
    (hc : c.globalDefault = true) :
    ∃ e, pickDefault acc c = some e ∧ e.value ≤ c.value := by
  cases acc with
  | none => exact ⟨c, pickDefault_none_default c hc, le_refl _⟩
  | some d =>
    by_cases hv : d.value > c.value
    · exact ⟨c, pickDefault_lt d c hc hv, le_refl _⟩
    · exact ⟨d, pickDefault_ge d c hc hv, le_of_not_gt hv⟩

/-- The fold's result value is a lower bound of the starting accumulator
and of every global-default class in the list. -/
theorem foldl_pickDefault_min (l : List PriorityClass) :
    ∀ (acc : Option PriorityClass) (d : PriorityClass),
      l.foldl pickDefault acc = some d →
      (∀ a, acc = some a → d.value ≤ a.value) ∧
      (∀ c ∈ l, c.globalDefault = true → d.value ≤ c.value) := by
  induction l with
  | nil =>
    intro acc d hd
    refine ⟨fun a ha => ?_, fun c hc => absurd hc (List.not_mem_nil c)⟩
    rw [ha] at hd
    cases hd
    exact le_refl _
  | cons c0 l ih =>
    intro acc d hd
    rw [List.foldl_cons] at hd
    obtain ⟨h1, h2⟩ := ih (pickDefault acc c0) d hd
    constructor
    · intro a ha
      subst ha
      obtain ⟨e, he⟩ := pickDefault_isSome a c0
      exact le_trans (h1 e he) (pickDefault_le_acc a c0 e he)
    · intro c hc hcdef
      rcases List.mem_cons.mp hc with h | h
      · subst h
        obtain ⟨e, he, hle⟩ := pickDefault_default_le acc c hcdef
        exact le_trans (h1 e he) hle
      · exact h2 c h hcdef

/-- When some global-default class is in the list, the fold finds one. -/
theorem foldl_pickDefault_exists (l : List PriorityClass) :
    ∀ (acc : Option PriorityClass) (c : PriorityClass), c ∈ l → c.globalDefault = true →
      ∃ d, l.foldl pickDefault acc = some d := by
  induction l with
  | nil => intro _ c h _; exact absurd h (List.not_mem_nil c)
  | cons c0 l ih =>
    intro acc c hc hdef
    rw [List.foldl_cons]
    rcases List.mem_cons.mp hc with h | h
    · subst h
      obtain ⟨e, he, _⟩ := pickDefault_default_le acc c hdef
      rw [he]
      exact foldl_pickDefault_isSome l e
    · exact ih (pickDefault acc c0) c h hdef

/-- When no class in the list is a global default, the fold returns
none. -/
theorem foldl_pickDefault_none (l : List PriorityClass)
    (h : ∀ c ∈ l, c.globalDefault = false) :
    l.foldl pickDefault none = none := by
  induction l with
  | nil => rfl
  | cons c l ih =>
    rw [List.foldl_cons]
    rw [pickDefault_not_default none c (h c (List.mem_cons_self c l))]
    exact ih (fun c hm => h c (List.mem_cons_of_mem _ hm))

/-- Legacy inference leaves the pod's priority untouched. -/
theorem inferLegacy_priority (gates : FeatureGates) (ns : String) (pod : Pod) :
    (inferLegacy gates ns pod).spec.priority = pod.spec.priority := by
  unfold inferLegacy
  split <;> rfl

/-- Legacy inference leaves the pod's annotation map untouched. -/
theorem inferLegacy_annots (gates : FeatureGates) (ns : String) (pod : Pod) :
    (inferLegacy gates ns pod).annots = pod.annots := by
  unfold inferLegacy
  split <;> rfl

/-- A string whose length compares equal to zero is the empty string. -/
theorem length_beq_zero_eq_empty (s : String) (h : (s.length == 0) = true) : s = "" := by
  have h2 : s.length = 0 := by simpa using h
  exact String.ext (List.length_eq_zero.mp h2)

/-- Legacy inference is the identity when the pod names a class. -/
theorem inferLegacy_of_named (gates : FeatureGates) (ns : String) (pod : Pod)
    (h : pod.spec.priorityClassName ≠ "") :
    inferLegacy gates ns pod = pod := by
  unfold inferLegacy
  rw [if_neg]
  intro hcontra
  rcases Bool.and_eq_true_iff.mp hcontra with ⟨h1, _⟩
  rcases Bool.and_eq_true_iff.mp h1 with ⟨hlen, _⟩
  exact h (length_beq_zero_eq_empty _ hlen)

/-- Legacy inference is the identity when the gate-and-marker condition
is off, even on an unnamed pod. -/
theorem inferLegacy_of_off (gates : FeatureGates) (ns : String) (pod : Pod)
    (h : (gates.experimentalCriticalPodAnnot && IsCritical ns pod.annots) = false) :
    inferLegacy gates ns pod = pod := by
  unfold inferLegacy
  rw [if_neg]
  intro hcontra
  rcases Bool.and_eq_true_iff.mp hcontra with ⟨h1, h2⟩
  rcases Bool.and_eq_true_iff.mp h1 with ⟨_, h3⟩
  rw [h3, h2] at h
  simp at h

/-- Create-time resolution never changes the pod's carried priority. -/
theorem resolveCreate_priority_eq (gates : FeatureGates) (lister : Lister)
    (ns : String) (pod pod2 : Pod) (v : Int)
    (h : resolveCreate gates lister ns pod = .ok (pod2, v)) :
    pod2.spec.priority = pod.spec.priority := by
  simp only [resolveCreate] at h
  rw [← inferLegacy_priority gates ns pod]
  split at h
  · split at h
    · exact absurd h (by simp)
    · simp only [Except.ok.injEq, Prod.mk.injEq] at h
      rw [← h.1]
  · split at h
    · exact absurd h (by simp)
    · split at h
      · exact absurd h (by simp)
      · exact absurd h (by simp)
      · simp only [Except.ok.injEq, Prod.mk.injEq] at h
        rw [← h.1]

/-- Default-resolution equation: an unnamed pod (after legacy inference)
takes the name and value that `getDefaultPriority` returns. -/
theorem resolveCreate_default (gates : FeatureGates) (lister : Lister) (ns : String)
    (pod : Pod) (n : String) (v : Int)
    (hname : (inferLegacy gates ns pod).spec.priorityClassName = "")
    (hd : getDefaultPriority lister = .ok (n, v)) :
    resolveCreate gates lister ns pod =
      .ok ({ inferLegacy gates ns pod with
              spec := { (inferLegacy gates ns pod).spec with priorityClassName := n } }, v) := by
  have hcond : ((inferLegacy gates ns pod).spec.priorityClassName.length == 0) = true := by
    rw [hname]
    decide
  simp only [resolveCreate]
  rw [if_pos hcond, hd]

/-- Default-resolution failure: an unnamed pod (after legacy inference)
fails with a transient error when the index list fails. -/
theorem resolveCreate_default_error (gates : FeatureGates) (lister : Lister) (ns : String)
    (pod : Pod) (e : ListerError)
    (hname : (inferLegacy gates ns pod).spec.priorityClassName = "")
    (hd : getDefaultPriority lister = .error e) :
    resolveCreate gates lister ns pod =
      .error (.internalError "failed to get default priority class") := by
  have hcond : ((inferLegacy gates ns pod).spec.priorityClassName.length == 0) = true := by
    rw [hname]
    decide
  simp only [resolveCreate]
  rw [if_pos hcond, hd]

/-- On a named pod the length test of the empty-name check is false. -/
theorem named_length_cond (gates : FeatureGates) (ns : String) (pod : Pod)
    (hname : (inferLegacy gates ns pod).spec.priorityClassName ≠ "") :
    ¬(((inferLegacy gates ns pod).spec.priorityClassName.length == 0) = true) := by
  intro hcontra
  exact hname (length_beq_zero_eq_empty _ hcontra)

/-- Explicit-resolution equation, namespace-restriction branch: a named
pod whose class is not permitted in the namespace is rejected as a policy
violation. -/
theorem resolveCreate_named_not_permitted (gates : FeatureGates) (lister : Lister)
    (ns : String) (pod : Pod)
    (hname : (inferLegacy gates ns pod).spec.priorityClassName ≠ "")
    (hperm : priorityClassPermittedInNamespace
        (inferLegacy gates ns pod).spec.priorityClassName ns = false) :
    isForbiddenErr (resolveCreate gates lister ns pod) = true := by
  have hcond2 : (!priorityClassPermittedInNamespace
      (inferLegacy gates ns pod).spec.priorityClassName ns) = true := by
    rw [hperm]
    decide
  simp only [resolveCreate]
  rw [if_neg (named_length_cond gates ns pod hname), if_pos hcond2]
  rfl

/-- Explicit-resolution equation, lookup branch: a permitted named pod
resolves the looked-up class's value. -/
theorem resolveCreate_named_found (gates : FeatureGates) (lister : Lister)
    (ns : String) (pod : Pod) (pc : PriorityClass)
    (hname : (inferLegacy gates ns pod).spec.priorityClassName ≠ "")
    (hperm : priorityClassPermittedInNamespace
        (inferLegacy gates ns pod).spec.priorityClassName ns = true)
    (hget : lister.get (inferLegacy gates ns pod).spec.priorityClassName = .ok pc) :
    resolveCreate gates lister ns pod = .ok (inferLegacy gates ns pod, pc.value) := by
  have hcond2 : ¬((!priorityClassPermittedInNamespace
      (inferLegacy gates ns pod).spec.priorityClassName ns) = true) := by
    rw [hperm]
    simp
  simp only [resolveCreate]
  rw [if_neg (named_length_cond gates ns pod hname), if_neg hcond2, hget]

/-- Explicit-resolution equation, not-found branch: a permitted named pod
whose class is missing from the index is rejected as a policy
violation. -/
theorem resolveCreate_named_notFound (gates : FeatureGates) (lister : Lister)
    (ns : String) (pod : Pod)
    (hname : (inferLegacy gates ns pod).spec.priorityClassName ≠ "")
    (hperm : priorityClassPermittedInNamespace
        (inferLegacy gates ns pod).spec.priorityClassName ns = true)
    (hget : lister.get (inferLegacy gates ns pod).spec.priorityClassName
        = .error .notFound) :
    resolveCreate gates lister ns pod =
      .error (.forbidden ("no PriorityClass with name "
        ++ (inferLegacy gates ns pod).spec.priorityClassName ++ " was found")) := by
  have hcond2 : ¬((!priorityClassPermittedInNamespace
      (inferLegacy gates ns pod).spec.priorityClassName ns) = true) := by
    rw [hperm]
    simp
  simp only [resolveCreate]
  rw [if_neg (named_length_cond gates ns pod hname), if_neg hcond2, hget]

/-- Explicit-resolution equation, other-lookup-failure branch: any lister
failure other than not-found is surfaced as a transient error. -/
theorem resolveCreate_named_other_error (gates : FeatureGates) (lister : Lister)
    (ns : String) (pod : Pod)
    (hname : (inferLegacy gates ns pod).spec.priorityClassName ≠ "")
    (hperm : priorityClassPermittedInNamespace
        (inferLegacy gates ns pod).spec.priorityClassName ns = true)
    (hget : lister.get (inferLegacy gates ns pod).spec.priorityClassName
        = .error .other) :
    resolveCreate gates lister ns pod =
      .error (.internalError ("failed to get PriorityClass with name "
        ++ (inferLegacy gates ns pod).spec.priorityClassName)) := by
  have hcond2 : ¬((!priorityClassPermittedInNamespace
      (inferLegacy gates ns pod).spec.priorityClassName ns) = true) := by
    rw [hperm]
    simp
  simp only [resolveCreate]
  rw [if_neg (named_length_cond gates ns pod hname), if_neg hcond2, hget]

/-- `admitPod` on create, when resolution succeeds and the pod carries no
priority or a matching priority, stamps the resolved value. -/
theorem admitPod_create_resolved (gates : FeatureGates) (lister : Lister)
    (r : GroupResource) (s ns : String) (pod : Pod) (old : RuntimeObject)
    (pod2 : Pod) (v : Int)
    (h : resolveCreate gates lister ns pod = .ok (pod2, v))
    (hp : pod2.spec.priority = none ∨ pod2.spec.priority = some v) :
    admitPod gates lister ⟨.create, r, s, ns, .pod pod, old⟩ =
      .ok { pod2 with spec := { pod2.spec with priority := some v } } := by
  simp only [admitPod]
  split
  · rename_i e heq
    rw [h] at heq
    cases heq
  · rename_i p2 pr heq
    rw [h] at heq
    simp only [Except.ok.injEq, Prod.mk.injEq] at heq
    obtain ⟨h1, h2⟩ := heq
    subst h1
    subst h2
    split
    · rename_i p heq2
      rcases hp with hp | hp
      · rw [hp] at heq2
        cases heq2
      · rw [hp] at heq2
        injection heq2 with h3
        subst h3
        simp
    · rfl

/-- `admitPod` on create, when resolution succeeds but the pod carries a
priority different from the resolved value, rejects the pod as a policy
violation. -/
theorem admitPod_create_mismatch (gates : FeatureGates) (lister : Lister)
    (r : GroupResource) (s ns : String) (pod : Pod) (old : RuntimeObject)
    (pod2 : Pod) (v p : Int)
    (h : resolveCreate gates lister ns pod = .ok (pod2, v))
    (hp : pod2.spec.priority = some p) (hne : p ≠ v) :
    isForbiddenErr (admitPod gates lister ⟨.create, r, s, ns, .pod pod, old⟩) = true := by
  simp only [admitPod]
  split
  · rename_i e heq
    rw [h] at heq
    cases heq
  · rename_i p2 pr heq
    rw [h] at heq
    simp only [Except.ok.injEq, Prod.mk.injEq] at heq
    obtain ⟨h1, h2⟩ := heq
    subst h1
    subst h2
    split
    · rename_i q heq2
      rw [hp] at heq2
      injection heq2 with h3
      subst h3
      rw [if_pos (bne_iff_ne.mpr hne)]
      rfl
    · rename_i heq2
      rw [hp] at heq2
      cases heq2

/-- `admitPod` on create propagates resolution errors unchanged. -/
theorem admitPod_create_error (gates : FeatureGates) (lister : Lister)
    (r : GroupResource) (s ns : String) (pod : Pod) (old : RuntimeObject)
    (e : AdmissionError)
    (h : resolveCreate gates lister ns pod = .error e) :
    admitPod gates lister ⟨.create, r, s, ns, .pod pod, old⟩ = .error e := by
  simp only [admitPod]
  split
  · rename_i e2 heq
    rw [h] at heq
    injection heq with h2
    rw [h2]
  · rename_i p2 pr heq
    rw [h] at heq
    cases heq

/-- Replacing a pod's priority by its current value is the identity. -/
theorem pod_eta_priority (pod : Pod) (x : Option Int) (h : pod.spec.priority = x) :
    { pod with spec := { pod.spec with priority := x } } = pod := by
  rw [← h]

/-- Replacing a pod's class name by its current value is the identity. -/
theorem pod_eta_name (pod : Pod) (x : String) (h : pod.spec.priorityClassName = x) :
    { pod with spec := { pod.spec with priorityClassName := x } } = pod := by
  rw [← h]

/-- `getDefaultPriorityClass` on a successful list is the fold. -/
theorem getDefaultPriorityClass_ok (lister : Lister) (cs : List PriorityClass)
    (h : lister.list = .ok cs) :
    getDefaultPriorityClass lister = .ok (cs.foldl pickDefault none) := by
  unfold getDefaultPriorityClass
  rw [h]

/-- `getDefaultPriorityClass` on a failed list propagates the error. -/
theorem getDefaultPriorityClass_err (lister : Lister) (e : ListerError)
    (h : lister.list = .error e) :
    getDefaultPriorityClass lister = .error e := by
  unfold getDefaultPriorityClass
  rw [h]

/-- When a global-default class is visible, `getDefaultPriorityClass`
returns a global-default class of minimal value. -/
theorem getDefaultPriorityClass_some (lister : Lister) (cs : List PriorityClass)
    (c : PriorityClass) (h : lister.list = .ok cs) (hc : c ∈ cs)
    (hdef : c.globalDefault = true) :
    ∃ d, getDefaultPriorityClass lister = .ok (some d) ∧ d.globalDefault = true ∧
      ∀ e ∈ cs, e.globalDefault = true → d.value ≤ e.value := by
  obtain ⟨d, hd⟩ := foldl_pickDefault_exists cs none c hc hdef
  refine ⟨d, ?_, ?_, ?_⟩
  · rw [getDefaultPriorityClass_ok lister cs h, hd]
  · exact foldl_pickDefault_globalDefault cs none (fun a ha => Option.noConfusion ha) d hd
  · exact (foldl_pickDefault_min cs none d hd).2

/-- When no global-default class is visible, `getDefaultPriorityClass`
returns none. -/
theorem getDefaultPriorityClass_none (lister : Lister) (cs : List PriorityClass)
    (h : lister.list = .ok cs) (hnod : ∀ c ∈ cs, c.globalDefault = false) :
    getDefaultPriorityClass lister = .ok none := by
  rw [getDefaultPriorityClass_ok lister cs h, foldl_pickDefault_none cs hnod]

/-- `validatePriorityClass` accepts every non-default class. -/
theorem validatePriorityClass_not_default (lister : Lister) (op : Operation)
    (r : GroupResource) (s ns : String) (pc : PriorityClass) (old : RuntimeObject)
    (h : pc.globalDefault = false) :
    validatePriorityClass lister ⟨op, r, s, ns, .priorityClass pc, old⟩ = .ok () := by
  simp only [validatePriorityClass]
  rw [if_neg (by simp [h])]

/-- `validatePriorityClass` on a default class, when a default is visible,
reduces to the create-or-different-name test. -/
theorem validatePriorityClass_default (lister : Lister) (op : Operation)
    (r : GroupResource) (s ns : String) (pc : PriorityClass) (old : RuntimeObject)
    (dpc : PriorityClass) (hpc : pc.globalDefault = true)
    (hd : getDefaultPriorityClass lister = .ok (some dpc)) :
    validatePriorityClass lister ⟨op, r, s, ns, .priorityClass pc, old⟩ =
      if op == .create || (op == .update && dpc.name != pc.name) then
        .error (.forbidden ("PriorityClass " ++ dpc.name
          ++ " is already marked as default. Only one default can exist"))
      else .ok () := by
  simp only [validatePriorityClass]
  rw [if_pos hpc, hd]

/-- `validatePriorityClass` on a default class accepts when no default is
visible. -/
theorem validatePriorityClass_no_default (lister : Lister) (op : Operation)
    (r : GroupResource) (s ns : String) (pc : PriorityClass) (old : RuntimeObject)
    (hpc : pc.globalDefault = true)
    (hd : getDefaultPriorityClass lister = .ok none) :
    validatePriorityClass lister ⟨op, r, s, ns, .priorityClass pc, old⟩ = .ok () := by
  simp only [validatePriorityClass]
  rw [if_pos hpc, hd]

/-- `validatePriorityClass` on a default class surfaces a list failure as
a transient error. -/
theorem validatePriorityClass_list_error (lister : Lister) (op : Operation)
    (r : GroupResource) (s ns : String) (pc : PriorityClass) (old : RuntimeObject)
    (e : ListerError) (hpc : pc.globalDefault = true)
    (hd : getDefaultPriorityClass lister = .error e) :
    validatePriorityClass lister ⟨op, r, s, ns, .priorityClass pc, old⟩ =
      .error (.internalError "failed to get default priority class") := by
  simp only [validatePriorityClass]
  rw [if_pos hpc, hd]

/-- `AdmitHandler` with the gate on routes a pod create to `admitPod`. -/
theorem AdmitHandler_pod_create (gates : FeatureGates) (lister : Lister)
    (ns : String) (pod : Pod) (old : RuntimeObject) (hg : gates.podPriority = true) :
    AdmitHandler gates lister ⟨.create, .pods, "", ns, .pod pod, old⟩ =
      (admitPod gates lister ⟨.create, .pods, "", ns, .pod pod, old⟩).map RuntimeObject.pod := by
  simp only [AdmitHandler, hg]
  rfl

/-- `AdmitHandler` with the gate on routes a pod update to `admitPod`. -/
theorem AdmitHandler_pod_update (gates : FeatureGates) (lister : Lister)
    (ns : String) (pod : Pod) (old : RuntimeObject) (hg : gates.podPriority = true) :
    AdmitHandler gates lister ⟨.update, .pods, "", ns, .pod pod, old⟩ =
      (admitPod gates lister ⟨.update, .pods, "", ns, .pod pod, old⟩).map RuntimeObject.pod := by
  simp only [AdmitHandler, hg]
  rfl

/-- `admitPod` on create stamps a priority on every accepted pod. -/
theorem admitPod_create_priority_some (gates : FeatureGates) (lister : Lister)
    (r : GroupResource) (s ns : String) (pod : Pod) (old : RuntimeObject) (pod3 : Pod)
    (h : admitPod gates lister ⟨.create, r, s, ns, .pod pod, old⟩ = .ok pod3) :
    pod3.spec.priority ≠ none := by
  simp only [admitPod] at h
  split at h
  · cases h
  · rename_i p2 pr heq
    split at h
    · rename_i p heq2
      split at h
      · cases h
      · injection h with h2
        rw [← h2]
        simp
    · injection h with h2
      rw [← h2]
      simp

/-- True exactly when the object is a pod with a populated priority. -/
def priorityPopulated : RuntimeObject → Bool
  | .pod p => p.spec.priority != none
  | _ => false

/-! ### Claim theorems -/

/-- `admitPod` on update: the exact result is the incoming pod with only
its priority field possibly replaced by the old pod's priority. -/
theorem admitPod_update_eq (gates : FeatureGates) (lister : Lister)
    (r : GroupResource) (s ns : String) (pod oldPod : Pod) :
    admitPod gates lister ⟨.update, r, s, ns, .pod pod, .pod oldPod⟩ =
      .ok { pod with spec := { pod.spec with priority :=
        if pod.spec.priority = none then oldPod.spec.priority else pod.spec.priority } } := by
  simp only [admitPod]
  cases hp : pod.spec.priority with
  | none =>
    cases ho : oldPod.spec.priority with
    | none =>
      rw [if_neg (by simp), if_pos rfl]
      rw [pod_eta_priority pod none hp]
    | some q =>
      rw [if_pos (by simp), if_pos rfl]
  | some p =>
    rw [if_neg (by simp), if_neg (by simp)]
    rw [pod_eta_priority pod (some p) hp]

/-- C7: for every pod Update, when the new pod's priority is empty and the
old pod's priority is non-empty the old value is copied onto the new pod,
when the new pod's priority is already set nothing changes, and no field
other than the priority is inspected or mutated: the result is exactly the
incoming pod with only its priority field possibly replaced, and it depends
on the old pod only through the old pod's priority. -/
theorem c7_update_frame (gates : FeatureGates) (lister : Lister)
    (r : GroupResource) (s ns : String) (pod oldPod : Pod) :
    admitPod gates lister ⟨.update, r, s, ns, .pod pod, .pod oldPod⟩ =
      .ok { pod with spec := { pod.spec with priority :=
        if pod.spec.priority = none then oldPod.spec.priority else pod.spec.priority } } :=
  admitPod_update_eq gates lister r s ns pod oldPod

/-- C8: `priorityClassPermittedInNamespace` returns false exactly when the
name is one of the reserved system priority-class names and the namespace
is not the distinguished system namespace; every other pair is
permitted. -/
theorem c8_namespace_policy (n ns : String) :
    priorityClassPermittedInNamespace n ns = false ↔
      ((n = SystemClusterCritical ∨ n = SystemNodeCritical) ∧ ns ≠ NamespaceSystem) := by
  unfold priorityClassPermittedInNamespace SystemPriorityClasses
  simp only [List.any_cons, List.any_nil, Bool.or_false, Bool.not_eq_false',
    Bool.or_eq_true, Bool.and_eq_true, beq_iff_eq, bne_iff_ne]
  constructor
  · rintro (⟨h1, h2⟩ | ⟨h1, h2⟩)
    · exact ⟨Or.inl h1.symm, h2⟩
    · exact ⟨Or.inr h1.symm, h2⟩
  · rintro ⟨h1 | h1, h2⟩
    · exact Or.inl ⟨h1.symm, h2⟩
    · exact Or.inr ⟨h1.symm, h2⟩

/-- C10: `Validate` produces the identical result under any two settings
of the feature gates (PriorityClass validation is not gated), while
`Admit` becomes a pass-through returning the object unchanged when the
PodPriority gate is disabled. -/
theorem c10_gate_independence :
    (∀ (g1 g2 : FeatureGates) (lister : Lister) (a : Attributes),
        Validate g1 lister a = Validate g2 lister a) ∧
    (∀ (gates : FeatureGates) (lister : Lister) (a : Attributes),
        gates.podPriority = false → AdmitHandler gates lister a = .ok a.object) := by
  refine ⟨fun g1 g2 lister a => rfl, fun gates lister a h => ?_⟩
  simp only [AdmitHandler, h]
  rfl

/-- Witness for C10 at a concrete disabled-gate input. -/
theorem c10_gate_independence_witness :
    AdmitHandler ⟨false, false⟩ (listerOf [])
      ⟨.create, .pods, "", "default", .pod ⟨[], ⟨"", none⟩⟩, .otherObject⟩ =
      .ok (.pod ⟨[], ⟨"", none⟩⟩) :=
  c10_gate_independence.2 ⟨false, false⟩ (listerOf [])
    ⟨.create, .pods, "", "default", .pod ⟨[], ⟨"", none⟩⟩, .otherObject⟩ rfl

/-- C3: a Create of a PriorityClass marked as global default is rejected
as a policy violation whenever any global-default class is visible in the
index, is accepted when none is visible, and a class with
`globalDefault = false` is always accepted by this check regardless of the
index contents. -/
theorem c3_create_single_default (lister : Lister) (r : GroupResource) (s ns : String)
    (pc : PriorityClass) (old : RuntimeObject) (cs : List PriorityClass)
    (hlist : lister.list = .ok cs) :
    (pc.globalDefault = true → (∃ c ∈ cs, c.globalDefault = true) →
      isForbiddenErr (validatePriorityClass lister
        ⟨.create, r, s, ns, .priorityClass pc, old⟩) = true) ∧
    (pc.globalDefault = true → (∀ c ∈ cs, c.globalDefault = false) →
      validatePriorityClass lister ⟨.create, r, s, ns, .priorityClass pc, old⟩ = .ok ()) ∧
    (pc.globalDefault = false → ∀ (op : Operation) (lister2 : Lister),
      validatePriorityClass lister2 ⟨op, r, s, ns, .priorityClass pc, old⟩ = .ok ()) := by
  refine ⟨?_, ?_, ?_⟩
  · rintro hpc ⟨c, hc, hcdef⟩
    obtain ⟨d, hd, hddef, _⟩ := getDefaultPriorityClass_some lister cs c hlist hc hcdef
    rw [validatePriorityClass_default lister .create r s ns pc old d hpc hd]
    rw [if_pos (by simp)]
    rfl
  · intro hpc hnod
    exact validatePriorityClass_no_default lister .create r s ns pc old hpc
      (getDefaultPriorityClass_none lister cs hlist hnod)
  · intro hpc op lister2
    exact validatePriorityClass_not_default lister2 op r s ns pc old hpc

/-- Witness for C3 at concrete inputs: a second default is rejected, a
first default is accepted, a non-default is accepted. -/
theorem c3_create_single_default_witness :
    isForbiddenErr (validatePriorityClass (listerOf [⟨"d1", 7, true⟩])
      ⟨.create, .priorityClasses, "", "", .priorityClass ⟨"d2", 3, true⟩, .otherObject⟩)
      = true ∧
    validatePriorityClass (listerOf [⟨"n1", 7, false⟩])
      ⟨.create, .priorityClasses, "", "", .priorityClass ⟨"d2", 3, true⟩, .otherObject⟩
      = .ok () ∧
    validatePriorityClass (listerOf [⟨"d1", 7, true⟩])
      ⟨.create, .priorityClasses, "", "", .priorityClass ⟨"n2", 3, false⟩, .otherObject⟩
      = .ok () := by
  refine ⟨?_, ?_, ?_⟩
  · exact (c3_create_single_default (listerOf [⟨"d1", 7, true⟩]) .priorityClasses "" ""
      ⟨"d2", 3, true⟩ .otherObject [⟨"d1", 7, true⟩] rfl).1 rfl
      ⟨⟨"d1", 7, true⟩, by decide, rfl⟩
  · exact (c3_create_single_default (listerOf [⟨"n1", 7, false⟩]) .priorityClasses "" ""
      ⟨"d2", 3, true⟩ .otherObject [⟨"n1", 7, false⟩] rfl).2.1 rfl (by decide)
  · exact (c3_create_single_default (listerOf [⟨"d1", 7, true⟩]) .priorityClasses "" ""
      ⟨"n2", 3, false⟩ .otherObject [⟨"d1", 7, true⟩] rfl).2.2 rfl .create
      (listerOf [⟨"d1", 7, true⟩])

/-- C2 counterexample: with two global-default classes visible (values 5
and 10), an Update re-affirming the lowest-value default "a" is accepted
even though another class "b" with `globalDefault = true` and a different
name is visible in the index — refuting the claim that any visible
differing-name default makes validation fail. -/
theorem c2_counterexample :
    (⟨"b", 10, true⟩ : PriorityClass) ∈
      [(⟨"a", 5, true⟩ : PriorityClass), ⟨"b", 10, true⟩] ∧
    (⟨"b", 10, true⟩ : PriorityClass).globalDefault = true ∧
    (⟨"b", 10, true⟩ : PriorityClass).name ≠ (⟨"a", 5, true⟩ : PriorityClass).name ∧
    (listerOf [⟨"a", 5, true⟩, ⟨"b", 10, true⟩]).list =
      .ok [⟨"a", 5, true⟩, ⟨"b", 10, true⟩] ∧
    validatePriorityClass (listerOf [⟨"a", 5, true⟩, ⟨"b", 10, true⟩])
      ⟨.update, .priorityClasses, "", "", .priorityClass ⟨"a", 5, true⟩, .otherObject⟩
      = .ok () := by
  refine ⟨by decide, rfl, by decide, rfl, rfl⟩

/-- C2 (amended): for every Update of a PriorityClass whose globalDefault
is true, if the resolved default (the lowest-value visible default, as
returned by `getDefaultPriorityClass`) has a name differing from the
updated class's name, validation fails with a policy violation; if the
resolved default has the updated class's own name, or no default is
visible, the update is accepted. -/
theorem c2_update_default_amended (lister : Lister) (r : GroupResource) (s ns : String)
    (pc : PriorityClass) (old : RuntimeObject) (hpc : pc.globalDefault = true) :
    (∀ dpc, getDefaultPriorityClass lister = .ok (some dpc) → dpc.name ≠ pc.name →
      isForbiddenErr (validatePriorityClass lister
        ⟨.update, r, s, ns, .priorityClass pc, old⟩) = true) ∧
    (∀ dpc, getDefaultPriorityClass lister = .ok (some dpc) → dpc.name = pc.name →
      validatePriorityClass lister ⟨.update, r, s, ns, .priorityClass pc, old⟩ = .ok ()) ∧
    (getDefaultPriorityClass lister = .ok none →
      validatePriorityClass lister ⟨.update, r, s, ns, .priorityClass pc, old⟩ = .ok ()) := by
  refine ⟨?_, ?_, ?_⟩
  · intro dpc hd hne
    rw [validatePriorityClass_default lister .update r s ns pc old dpc hpc hd]
    rw [if_pos (by simp [hne])]
    rfl
  · intro dpc hd heq
    rw [validatePriorityClass_default lister .update r s ns pc old dpc hpc hd]
    rw [if_neg (by simp [heq])]
  · intro hd
    exact validatePriorityClass_no_default lister .update r s ns pc old hpc hd

/-- Witness for the amended C2 at concrete inputs. -/
theorem c2_update_default_amended_witness :
    isForbiddenErr (validatePriorityClass (listerOf [⟨"other", 2, true⟩])
      ⟨.update, .priorityClasses, "", "", .priorityClass ⟨"me", 4, true⟩, .otherObject⟩)
      = true ∧
    validatePriorityClass (listerOf [⟨"me", 4, true⟩])
      ⟨.update, .priorityClasses, "", "", .priorityClass ⟨"me", 4, true⟩, .otherObject⟩
      = .ok () ∧
    validatePriorityClass (listerOf [])
      ⟨.update, .priorityClasses, "", "", .priorityClass ⟨"me", 4, true⟩, .otherObject⟩
      = .ok () := by
  refine ⟨?_, ?_, ?_⟩
  · exact (c2_update_default_amended (listerOf [⟨"other", 2, true⟩]) .priorityClasses ""
      "" ⟨"me", 4, true⟩ .otherObject rfl).1 ⟨"other", 2, true⟩ rfl (by decide)
  · exact (c2_update_default_amended (listerOf [⟨"me", 4, true⟩]) .priorityClasses ""
      "" ⟨"me", 4, true⟩ .otherObject rfl).2.1 ⟨"me", 4, true⟩ rfl rfl
  · exact (c2_update_default_amended (listerOf []) .priorityClasses ""
      "" ⟨"me", 4, true⟩ .otherObject rfl).2.2 rfl

/-- C5: a Create of a pod with empty priority and empty class name, with
the legacy inference not firing and no global-default class visible in the
index, resolves the fixed fallback constant as the priority while the
class name stays empty: the admitted pod is the incoming pod with only the
fallback priority stamped. -/
theorem c5_fallback (gates : FeatureGates) (lister : Lister) (r : GroupResource)
    (s ns : String) (pod : Pod) (old : RuntimeObject) (cs : List PriorityClass)
    (hpri : pod.spec.priority = none)
    (hname : pod.spec.priorityClassName = "")
    (hleg : (gates.experimentalCriticalPodAnnot && IsCritical ns pod.annots) = false)
    (hlist : lister.list = .ok cs)
    (hnod : ∀ c ∈ cs, c.globalDefault = false) :
    admitPod gates lister ⟨.create, r, s, ns, .pod pod, old⟩ =
      .ok { pod with spec := { pod.spec with
              priority := some DefaultPriorityWhenNoDefaultClassExists } } := by
  have hinf : inferLegacy gates ns pod = pod := inferLegacy_of_off gates ns pod hleg
  have hd : getDefaultPriority lister = .ok ("", DefaultPriorityWhenNoDefaultClassExists) := by
    unfold getDefaultPriority
    rw [getDefaultPriorityClass_none lister cs hlist hnod]
  have hres : resolveCreate gates lister ns pod =
      .ok (pod, DefaultPriorityWhenNoDefaultClassExists) := by
    have h2 := resolveCreate_default gates lister ns pod ""
      DefaultPriorityWhenNoDefaultClassExists (by rw [hinf, hname]) hd
    rw [hinf, pod_eta_name pod "" hname] at h2
    exact h2
  rw [admitPod_create_resolved gates lister r s ns pod old pod
    DefaultPriorityWhenNoDefaultClassExists hres (Or.inl hpri)]

/-- Witness for C5 at a concrete input: with only a non-default class in
the index, an unnamed pod gets the fallback priority and no class name. -/
theorem c5_fallback_witness :
    admitPod ⟨true, false⟩ (listerOf [⟨"x", 4, false⟩])
      ⟨.create, .pods, "", "default", .pod ⟨[], ⟨"", none⟩⟩, .otherObject⟩ =
      .ok ⟨[], ⟨"", some DefaultPriorityWhenNoDefaultClassExists⟩⟩ :=
  c5_fallback ⟨true, false⟩ (listerOf [⟨"x", 4, false⟩]) .pods "" "default"
    ⟨[], ⟨"", none⟩⟩ .otherObject [⟨"x", 4, false⟩] rfl rfl rfl rfl (by decide)

/-- C1: a Create of a pod with no priority and no class name (legacy
inference not firing), while the index lists more than one global-default
class, resolves the default of numerically lowest value: the resolved
class is a global default whose value is a lower bound of every visible
default's value, and the pod is admitted with that class's name and
value. -/
theorem c1_lowest_default (gates : FeatureGates) (lister : Lister) (r : GroupResource)
    (s ns : String) (pod : Pod) (old : RuntimeObject) (cs : List PriorityClass)
    (hpri : pod.spec.priority = none)
    (hname : pod.spec.priorityClassName = "")
    (hleg : (gates.experimentalCriticalPodAnnot && IsCritical ns pod.annots) = false)
    (hlist : lister.list = .ok cs)
    (hmulti : 1 < (cs.filter (fun c => c.globalDefault)).length) :
    ∃ dpc, getDefaultPriorityClass lister = .ok (some dpc) ∧ dpc.globalDefault = true ∧
      (∀ c ∈ cs, c.globalDefault = true → dpc.value ≤ c.value) ∧
      admitPod gates lister ⟨.create, r, s, ns, .pod pod, old⟩ =
        .ok { pod with spec := { pod.spec with
                priorityClassName := dpc.name, priority := some dpc.value } } := by
  have hex : ∃ c ∈ cs, c.globalDefault = true := by
    have hpos : 0 < (cs.filter (fun c => c.globalDefault)).length :=
      Nat.lt_trans Nat.zero_lt_one hmulti
    obtain ⟨c, hc⟩ := List.exists_mem_of_ne_nil _ (List.length_pos.mp hpos)
    exact ⟨c, (List.mem_filter.mp hc).1, (List.mem_filter.mp hc).2⟩
  obtain ⟨c, hc, hcdef⟩ := hex
  obtain ⟨d, hd, hddef, hmin⟩ := getDefaultPriorityClass_some lister cs c hlist hc hcdef
  refine ⟨d, hd, hddef, hmin, ?_⟩
  have hinf : inferLegacy gates ns pod = pod := inferLegacy_of_off gates ns pod hleg
  have hgd : getDefaultPriority lister = .ok (d.name, d.value) := by
    unfold getDefaultPriority
    rw [hd]
  have hres : resolveCreate gates lister ns pod =
      .ok ({ pod with spec := { pod.spec with priorityClassName := d.name } }, d.value) := by
    have h2 := resolveCreate_default gates lister ns pod d.name d.value
      (by rw [hinf, hname]) hgd
    rw [hinf] at h2
    exact h2
  rw [admitPod_create_resolved gates lister r s ns pod old
    { pod with spec := { pod.spec with priorityClassName := d.name } } d.value hres
    (Or.inl hpri)]

/-- Witness for C1 at the spec's concrete input: two defaults of values 10
and 5 visible, an unnamed pod resolves to priority 5. -/
theorem c1_lowest_default_witness :
    admitPod ⟨true, false⟩ (listerOf [⟨"ten", 10, true⟩, ⟨"five", 5, true⟩])
      ⟨.create, .pods, "", "default", .pod ⟨[], ⟨"", none⟩⟩, .otherObject⟩ =
      .ok ⟨[], ⟨"five", some 5⟩⟩ := by
  obtain ⟨dpc, hd, _, _, hadmit⟩ := c1_lowest_default ⟨true, false⟩
    (listerOf [⟨"ten", 10, true⟩, ⟨"five", 5, true⟩]) .pods "" "default"
    ⟨[], ⟨"", none⟩⟩ .otherObject [⟨"ten", 10, true⟩, ⟨"five", 5, true⟩]
    rfl rfl rfl rfl (by decide)
  have heval : getDefaultPriorityClass (listerOf [⟨"ten", 10, true⟩, ⟨"five", 5, true⟩])
      = .ok (some ⟨"five", 5, true⟩) := rfl
  rw [heval] at hd
  injection hd with h1
  injection h1 with h2
  rw [← h2] at hadmit
  exact hadmit

/-- C4: with the resolution feature enabled, every pod Create admission
that returns success yields a pod whose priority is populated; and every
pod Update admission that returns success yields a pod whose priority is
populated whenever the old pod's priority was populated (a previously
populated priority is never cleared). -/
theorem c4_priority_populated :
    (∀ (gates : FeatureGates) (lister : Lister) (ns : String) (pod : Pod)
        (old obj2 : RuntimeObject),
      gates.podPriority = true →
      AdmitHandler gates lister ⟨.create, .pods, "", ns, .pod pod, old⟩ = .ok obj2 →
      priorityPopulated obj2 = true) ∧
    (∀ (gates : FeatureGates) (lister : Lister) (ns : String) (pod oldPod : Pod)
        (obj2 : RuntimeObject) (p : Int),
      gates.podPriority = true →
      oldPod.spec.priority = some p →
      AdmitHandler gates lister ⟨.update, .pods, "", ns, .pod pod, .pod oldPod⟩ = .ok obj2 →
      priorityPopulated obj2 = true) := by
  constructor
  · intro gates lister ns pod old obj2 hg hadm
    rw [AdmitHandler_pod_create gates lister ns pod old hg] at hadm
    cases hpod : admitPod gates lister ⟨.create, .pods, "", ns, .pod pod, old⟩ with
    | error e => rw [hpod] at hadm; cases hadm
    | ok pod2 =>
      rw [hpod] at hadm
      simp only [Except.map] at hadm
      injection hadm with h2
      rw [← h2]
      have hne := admitPod_create_priority_some gates lister .pods "" ns pod old pod2 hpod
      simp only [priorityPopulated]
      simpa using hne
  · intro gates lister ns pod oldPod obj2 p hg hold hadm
    rw [AdmitHandler_pod_update gates lister ns pod (.pod oldPod) hg] at hadm
    rw [admitPod_update_eq gates lister .pods "" ns pod oldPod] at hadm
    simp only [Except.map] at hadm
    injection hadm with h2
    rw [← h2]
    simp only [priorityPopulated]
    show (({ pod with spec := { pod.spec with priority :=
      if pod.spec.priority = none then oldPod.spec.priority else pod.spec.priority } }
      : Pod).spec.priority != none) = true
    by_cases hp : pod.spec.priority = none
    · show ((if pod.spec.priority = none then oldPod.spec.priority
        else pod.spec.priority) != none) = true
      rw [if_pos hp, hold]
      rfl
    · show ((if pod.spec.priority = none then oldPod.spec.priority
        else pod.spec.priority) != none) = true
      rw [if_neg hp]
      simpa using hp

/-- Witness for C4 at concrete inputs: a create stamps the fallback
priority, an update keeps the old priority 7. -/
theorem c4_priority_populated_witness :
    priorityPopulated (.pod ⟨[], ⟨"", some 0⟩⟩) = true ∧
    priorityPopulated (.pod ⟨[], ⟨"", some 7⟩⟩) = true := by
  constructor
  · exact c4_priority_populated.1 ⟨true, false⟩ (listerOf []) "default" ⟨[], ⟨"", none⟩⟩
      .otherObject (.pod ⟨[], ⟨"", some 0⟩⟩) rfl rfl
  · exact c4_priority_populated.2 ⟨true, false⟩ (listerOf []) "default" ⟨[], ⟨"", none⟩⟩
      ⟨[], ⟨"x", some 7⟩⟩ (.pod ⟨[], ⟨"", some 7⟩⟩) 7 rfl rfl rfl

/-- C6: on a pod Create whose resolution computes the value v, a pod that
already carries a non-empty priority differing from v is rejected as a
policy violation, while a pod carrying exactly v is admitted with the
carried value unchanged. -/
theorem c6_consistency (gates : FeatureGates) (lister : Lister) (r : GroupResource)
    (s ns : String) (pod : Pod) (old : RuntimeObject) (pod2 : Pod) (v : Int)
    (hres : resolveCreate gates lister ns pod = .ok (pod2, v)) :
    (∀ p, pod.spec.priority = some p → p ≠ v →
      isForbiddenErr (admitPod gates lister ⟨.create, r, s, ns, .pod pod, old⟩) = true) ∧
    (pod.spec.priority = some v →
      admitPod gates lister ⟨.create, r, s, ns, .pod pod, old⟩ = .ok pod2 ∧
      pod2.spec.priority = some v) := by
  have hpp := resolveCreate_priority_eq gates lister ns pod pod2 v hres
  constructor
  · intro p hp hne
    exact admitPod_create_mismatch gates lister r s ns pod old pod2 v p hres
      (hpp.trans hp) hne
  · intro hp
    have hp2 : pod2.spec.priority = some v := hpp.trans hp
    refine ⟨?_, hp2⟩
    rw [admitPod_create_resolved gates lister r s ns pod old pod2 v hres (Or.inr hp2)]
    rw [pod_eta_priority pod2 (some v) hp2]

/-- Witness for C6 at concrete inputs: a pod carrying 3 against a class of
value 5 is rejected, a pod carrying 5 is admitted unchanged. -/
theorem c6_consistency_witness :
    isForbiddenErr (admitPod ⟨true, false⟩ (listerOf [⟨"c", 5, false⟩])
      ⟨.create, .pods, "", "default", .pod ⟨[], ⟨"c", some 3⟩⟩, .otherObject⟩) = true ∧
    admitPod ⟨true, false⟩ (listerOf [⟨"c", 5, false⟩])
      ⟨.create, .pods, "", "default", .pod ⟨[], ⟨"c", some 5⟩⟩, .otherObject⟩ =
      .ok ⟨[], ⟨"c", some 5⟩⟩ := by
  constructor
  · exact (c6_consistency ⟨true, false⟩ (listerOf [⟨"c", 5, false⟩]) .pods "" "default"
      ⟨[], ⟨"c", some 3⟩⟩ .otherObject ⟨[], ⟨"c", some 3⟩⟩ 5 rfl).1 3 rfl (by decide)
  · exact ((c6_consistency ⟨true, false⟩ (listerOf [⟨"c", 5, false⟩]) .pods "" "default"
      ⟨[], ⟨"c", some 5⟩⟩ .otherObject ⟨[], ⟨"c", some 5⟩⟩ 5 rfl).2 rfl).1

/-- C9: on a pod Create naming a non-empty class that passes the namespace
check, a lookup miss is rejected as a policy violation while any other
lookup failure is a transient error distinct from a policy violation; and
on the default-resolution path a list failure of the index is likewise a
transient error. -/
theorem c9_lookup_errors :
    (∀ (gates : FeatureGates) (lister : Lister) (r : GroupResource) (s ns : String)
        (pod : Pod) (old : RuntimeObject),
      pod.spec.priorityClassName ≠ "" →
      priorityClassPermittedInNamespace pod.spec.priorityClassName ns = true →
      (lister.get pod.spec.priorityClassName = .error .notFound →
        isForbiddenErr (admitPod gates lister
          ⟨.create, r, s, ns, .pod pod, old⟩) = true) ∧
      (lister.get pod.spec.priorityClassName = .error .other →
        isTransientErr (admitPod gates lister
          ⟨.create, r, s, ns, .pod pod, old⟩) = true ∧
        isForbiddenErr (admitPod gates lister
          ⟨.create, r, s, ns, .pod pod, old⟩) = false)) ∧
    (∀ (gates : FeatureGates) (lister : Lister) (r : GroupResource) (s ns : String)
        (pod : Pod) (old : RuntimeObject) (e : ListerError),
      pod.spec.priorityClassName = "" →
      (gates.experimentalCriticalPodAnnot && IsCritical ns pod.annots) = false →
      lister.list = .error e →
      isTransientErr (admitPod gates lister
        ⟨.create, r, s, ns, .pod pod, old⟩) = true ∧
      isForbiddenErr (admitPod gates lister
        ⟨.create, r, s, ns, .pod pod, old⟩) = false) := by
  constructor
  · intro gates lister r s ns pod old hname hperm
    have hinf : inferLegacy gates ns pod = pod := inferLegacy_of_named gates ns pod hname
    have hname2 : (inferLegacy gates ns pod).spec.priorityClassName ≠ "" := by
      rw [hinf]; exact hname
    have hperm2 : priorityClassPermittedInNamespace
        (inferLegacy gates ns pod).spec.priorityClassName ns = true := by
      rw [hinf]; exact hperm
    constructor
    · intro hget
      have hget2 : lister.get (inferLegacy gates ns pod).spec.priorityClassName
          = .error .notFound := by rw [hinf]; exact hget
      have hres := resolveCreate_named_notFound gates lister ns pod hname2 hperm2 hget2
      rw [admitPod_create_error gates lister r s ns pod old _ hres]
      rfl
    · intro hget
      have hget2 : lister.get (inferLegacy gates ns pod).spec.priorityClassName
          = .error .other := by rw [hinf]; exact hget
      have hres := resolveCreate_named_other_error gates lister ns pod hname2 hperm2 hget2
      rw [admitPod_create_error gates lister r s ns pod old _ hres]
      exact ⟨rfl, rfl⟩
  · intro gates lister r s ns pod old e hname hleg hlist
    have hinf : inferLegacy gates ns pod = pod := inferLegacy_of_off gates ns pod hleg
    have hgd : getDefaultPriority lister = .error e := by
      unfold getDefaultPriority
      rw [getDefaultPriorityClass_err lister e hlist]
    have hres := resolveCreate_default_error gates lister ns pod e
      (by rw [hinf]; exact hname) hgd
    rw [admitPod_create_error gates lister r s ns pod old _ hres]
    exact ⟨rfl, rfl⟩

/-- Witness for C9 at concrete inputs: a missing class is a policy
violation, another lookup failure and a list failure are transient. -/
theorem c9_lookup_errors_witness :
    isForbiddenErr (admitPod ⟨true, false⟩ (listerOf [])
      ⟨.create, .pods, "", "default", .pod ⟨[], ⟨"c", none⟩⟩, .otherObject⟩) = true ∧
    isTransientErr (admitPod ⟨true, false⟩ ⟨fun _ => .error .other, .ok []⟩
      ⟨.create, .pods, "", "default", .pod ⟨[], ⟨"c", none⟩⟩, .otherObject⟩) = true ∧
    isTransientErr (admitPod ⟨true, false⟩ ⟨fun _ => .error .other, .error .other⟩
      ⟨.create, .pods, "", "default", .pod ⟨[], ⟨"", none⟩⟩, .otherObject⟩) = true := by
  refine ⟨?_, ?_, ?_⟩
  · exact ((c9_lookup_errors.1 ⟨true, false⟩ (listerOf []) .pods "" "default"
      ⟨[], ⟨"c", none⟩⟩ .otherObject (by decide) rfl).1 rfl)
  · exact ((c9_lookup_errors.1 ⟨true, false⟩ ⟨fun _ => .error .other, .ok []⟩ .pods ""
      "default" ⟨[], ⟨"c", none⟩⟩ .otherObject (by decide) rfl).2 rfl).1
  · exact (c9_lookup_errors.2 ⟨true, false⟩ ⟨fun _ => .error .other, .error .other⟩
      .pods "" "default" ⟨[], ⟨"", none⟩⟩ .otherObject .other rfl rfl rfl).1

end KubePriority
